import Mathlib

/-!
Verification of the Contractor Smart Site backend (src/main.py, src/schemas.py).

Numbers are modelled as exact rationals (ℚ): the calculator in src/main.py
computes over Python floats, but every quantity the claims mention is exactly
representable, and the spec (§4.2) presents the algorithm as exact arithmetic
with a final 2-decimal rounding whose half-way rule is explicitly left to the
language default.  `round2` below uses Lean's `round` (half-up); the spec
accepts any standard half rule.
-/

namespace ContractorSmartSite

/-- Calculator input, from `CalcInput` in src/main.py (lines 69-73).
The pydantic bounds (`conint`/`confloat`) are the predicate `CalcInput.Valid`. -/
structure CalcInput where
  monthly_inquiries : Int
  connection_rate : ℚ
  close_rate : ℚ
  lifetime_value : ℚ
deriving DecidableEq, Repr

/-- The pydantic field constraints of `CalcInput`:
`conint(ge=0, le=10000)`, `confloat(ge=0, le=100)` twice, `confloat(gt=0, le=1000000)`. -/
def CalcInput.Valid (b : CalcInput) : Prop :=
  0 ≤ b.monthly_inquiries ∧ b.monthly_inquiries ≤ 10000 ∧
  0 ≤ b.connection_rate ∧ b.connection_rate ≤ 100 ∧
  0 ≤ b.close_rate ∧ b.close_rate ≤ 100 ∧
  0 < b.lifetime_value ∧ b.lifetime_value ≤ 1000000

instance (b : CalcInput) : Decidable b.Valid := by
  unfold CalcInput.Valid; infer_instance

/-- Python `round(x, 2)`: round to 2 decimal places.  Lean's `round` is
half-up; the spec (§4.2) allows any language-default half rule. -/
def round2 (x : ℚ) : ℚ := ((round (100 * x) : ℤ) : ℚ) / 100

/-- `curr_conn` local of `calculate_revenue` (src/main.py line 90). -/
def curr_conn (b : CalcInput) : ℚ := b.monthly_inquiries * (b.connection_rate / 100)

/-- `curr_close` local (line 91). -/
def curr_close (b : CalcInput) : ℚ := curr_conn b * (b.close_rate / 100)

/-- `curr_rev` local (line 92). -/
def curr_rev (b : CalcInput) : ℚ := curr_close b * b.lifetime_value

/-- `smart_conn_rate` local (line 97): `min(95.0, connection_rate + 20.0)`. -/
def smart_conn_rate (b : CalcInput) : ℚ := min 95 (b.connection_rate + 20)

/-- `smart_close_rate` local (line 98): `min(85.0, close_rate + 5.0)`. -/
def smart_close_rate (b : CalcInput) : ℚ := min 85 (b.close_rate + 5)

/-- `smart_conn` local (line 100). -/
def smart_conn (b : CalcInput) : ℚ := b.monthly_inquiries * (smart_conn_rate b / 100)

/-- `smart_close` local (line 101). -/
def smart_close (b : CalcInput) : ℚ := smart_conn b * (smart_close_rate b / 100)

/-- `smart_rev` local (line 102). -/
def smart_rev (b : CalcInput) : ℚ := smart_close b * b.lifetime_value

/-- Calculator result, from `CalcResult` in src/main.py (lines 76-84).
The `assumptions` dict has exactly the two keys `smart_connection_rate` and
`smart_close_rate` (lines 112-115); it is flattened into two fields here. -/
structure CalcResult where
  current_connected : ℚ
  current_closed : ℚ
  current_revenue : ℚ
  smart_connected : ℚ
  smart_closed : ℚ
  smart_revenue : ℚ
  lift_revenue : ℚ
  smart_connection_rate : ℚ
  smart_close_rate : ℚ
deriving DecidableEq, Repr

/-- `calculate_revenue` (src/main.py lines 87-116): the POST /api/calculate body. -/
def calculate_revenue (b : CalcInput) : CalcResult :=
  { current_connected := round2 (curr_conn b)
    current_closed := round2 (curr_close b)
    current_revenue := round2 (curr_rev b)
    smart_connected := round2 (smart_conn b)
    smart_closed := round2 (smart_close b)
    smart_revenue := round2 (smart_rev b)
    lift_revenue := round2 (smart_rev b - curr_rev b)
    smart_connection_rate := smart_conn_rate b
    smart_close_rate := smart_close_rate b }

/-- A raw POST /api/calculate body before pydantic validation: each field is
`none` when absent (or null) and `some v` when present with a value of the
declared numeric type. -/
structure RawCalcInput where
  monthlyInquiries : Option Int
  connectionRate : Option ℚ
  closeRate : Option ℚ
  lifetimeValue : Option ℚ
deriving DecidableEq, Repr

/-- Pydantic validation of `CalcInput` (src/main.py lines 69-73): every field is
required (`Field(...)`) and must satisfy its `conint`/`confloat` bounds; any
violation rejects the whole request (`none`), there is no partial acceptance. -/
def validate_calc_input (raw : RawCalcInput) : Option CalcInput :=
  match raw.monthlyInquiries, raw.connectionRate, raw.closeRate, raw.lifetimeValue with
  | some mi, some cr, some cl, some lv =>
      if 0 ≤ mi ∧ mi ≤ 10000 ∧ 0 ≤ cr ∧ cr ≤ 100 ∧ 0 ≤ cl ∧ cl ≤ 100 ∧
          0 < lv ∧ lv ≤ 1000000
      then some ⟨mi, cr, cl, lv⟩
      else none
  | _, _, _, _ => none

/-- The email-syntax check behind pydantic's `EmailStr` (an external library,
not part of src/).  Modelled from the spec: local-part, one "@", domain
containing at least one dot (src spec section 4.1). -/
def isValidEmail (s : String) : Bool :=
  match s.toList.splitOn '@' with
  | [lp, dom] => !lp.isEmpty && !dom.isEmpty && dom.contains '.'
  | _ => false

/-- A validated Lead record (`Lead` in src/schemas.py lines 43-53). -/
structure Lead where
  name : String
  phone : String
  email : Option String
  source : String
  notes : Option String
  industry : Option String
deriving DecidableEq, Repr

/-- A raw POST /api/lead body before validation: `none` marks an absent or
null field. -/
structure RawLead where
  name : Option String
  phone : Option String
  email : Option String
  source : Option String
  notes : Option String
  industry : Option String
deriving DecidableEq, Repr

/-- Pydantic validation of `Lead` (src/schemas.py lines 43-53): `name`,
`phone`, `source` are required `str` fields (any string, the empty string
included — pydantic `str` does not demand non-emptiness); `email` is an
optional `EmailStr` that must pass the syntax check when present; `notes` and
`industry` are optional free strings.  Any violation rejects the whole
request. -/
def validate_lead (raw : RawLead) : Option Lead :=
  match raw.name, raw.phone, raw.source with
  | some n, some p, some s =>
      match raw.email with
      | some e =>
          if isValidEmail e
          then some ⟨n, p, some e, s, raw.notes, raw.industry⟩
          else none
      | none => some ⟨n, p, none, s, raw.notes, raw.industry⟩
  | _, _, _ => none

/-- One turn of the simulated conversation (src/main.py lines 133-138). -/
structure Turn where
  role : String
  text : String
deriving DecidableEq, Repr

/-- Python `x or d` on an `Optional[str]`: falls back to `d` when `x` is
`None` or the empty string (both falsy). -/
def orDefault (x : Option String) (d : String) : String :=
  match x with
  | some s => if s = "" then d else s
  | none => d

/-- The transcript built by `create_demo` (src/main.py lines 133-138): four
fixed turns, the first seeded by `sample_intent or "Hi! I\x27m looking for a
quote."`. -/
def demo_transcript (si : Option String) : List Turn :=
  [ ⟨"visitor", orDefault si "Hi! I\x27m looking for a quote."⟩,
    ⟨"ai", "You\x27re in the right place! I can help with that. May I have your address and a good time for an estimate?"⟩,
    ⟨"visitor", "Tomorrow afternoon works. 123 Main St."⟩,
    ⟨"ai", "Great. I\x27ve penciled you in for 2:30 PM. You\x27ll get a confirmation by text. Anything else I can answer now?"⟩ ]

/-- A validated DemoRequest (`DemoRequest` in src/schemas.py lines 55-62). -/
structure DemoRequest where
  name : String
  phone : String
  sample_intent : Option String
deriving DecidableEq, Repr

/-- Outcome of one `create_document` call on the persistence gateway: the
generated identifier, or the message of the exception it raised. -/
inductive InsertOutcome where
  | ok (ident : String)
  | error (msg : String)
deriving DecidableEq, Repr

/-- A record handed to the gateway (the pydantic model passed to
`create_document`). -/
inductive Record where
  | lead (l : Lead)
  | demo (d : DemoRequest)
deriving DecidableEq, Repr

/-- Response of POST /api/lead: `{"status": "ok", "id": ...}` on success,
or an HTTPException (status code, detail) on failure. -/
inductive LeadResponse where
  | ok (ident : String)
  | httpError (status : Nat) (detail : String)
deriving DecidableEq, Repr

/-- Response of POST /api/demo: `{"status": "ok", "id": ..., "transcript":
...}` on success, or an HTTPException (status code, detail) on failure. -/
inductive DemoResponse where
  | ok (ident : String) (transcript : List Turn)
  | httpError (status : Nat) (detail : String)
deriving DecidableEq, Repr

/-- `create_lead` (src/main.py lines 119-125), over a gateway oracle `gw`
giving the outcome of the n-th insert call.  The handler makes exactly one
`create_document("lead", lead)` call, recorded in the returned trace; on
success it returns the identifier, and any exception is caught once (no
retry) and mapped to HTTP 500 with detail `str(e)` — the raw message.
Validation failures are rejected before this handler runs (`validate_lead`)
and map to 422, so a 500 here is distinct from a validation failure. -/
def create_lead (gw : Nat → InsertOutcome) (lead : Lead) :
    LeadResponse × List (String × Record) :=
  match gw 0 with
  | .ok ident => (.ok ident, [("lead", .lead lead)])
  | .error e => (.httpError 500 e, [("lead", .lead lead)])

/-- `create_demo` (src/main.py lines 128-141): one
`create_document("demorequest", req)` call; the transcript is built only
after the insert succeeded (it sits after `create_document` inside the same
`try`), so a failed insert yields HTTP 500 with the raw `str(e)` and no
transcript and no identifier. -/
def create_demo (gw : Nat → InsertOutcome) (req : DemoRequest) :
    DemoResponse × List (String × Record) :=
  match gw 0 with
  | .ok ident => (.ok ident (demo_transcript req.sample_intent), [("demorequest", .demo req)])
  | .error e => (.httpError 500 e, [("demorequest", .demo req)])

/-- The transcript carried by a demo response, when there is one. -/
def response_transcript : DemoResponse → Option (List Turn)
  | .ok _ t => some t
  | .httpError _ _ => none

end ContractorSmartSite

namespace ContractorSmartSite

/-- C1: on input monthlyInquiries=100, connectionRate=50, closeRate=20,
lifetimeValue=1000 the calculator returns currentConnected=50, currentClosed=10,
currentRevenue=10000, smartConnected=70, smartClosed=17.5, smartRevenue=17500,
liftRevenue=7500, with assumptions smartConnectionRate=70 and smartCloseRate=25. -/
theorem calculate_revenue_concrete_scenario :
    calculate_revenue ⟨100, 50, 20, 1000⟩ =
      ⟨50, 10, 10000, 70, 35/2, 17500, 7500, 70, 25⟩ := by
  unfold calculate_revenue round2 smart_rev smart_close smart_conn smart_close_rate
    smart_conn_rate curr_rev curr_close curr_conn
  simp only [round_eq]
  norm_num

/-- C2 counterexample: the input (100, 100, 100, 1000) is valid, yet the
calculator's smartConnectionRate is 95, strictly below the input
connectionRate of 100 — so "smartConnectionRate >= connectionRate" fails. -/
theorem smart_rate_ge_input_counterexample :
    CalcInput.Valid ⟨100, 100, 100, 1000⟩ ∧
      ¬(100 : ℚ) ≤ (calculate_revenue ⟨100, 100, 100, 1000⟩).smart_connection_rate := by
  constructor
  · norm_num [CalcInput.Valid]
  · norm_num [calculate_revenue, smart_conn_rate]

/-- C2 (amended): for every valid CalculatorInput, smartConnectionRate ≤ 95 and
smartCloseRate ≤ 85; smartConnectionRate ≥ connectionRate whenever
connectionRate ≤ 95, and smartCloseRate ≥ closeRate whenever closeRate ≤ 85
(for larger input rates the cap pushes the smart rate below the input rate). -/
theorem smart_rates_capped (b : CalcInput) (_h : b.Valid) :
    (calculate_revenue b).smart_connection_rate ≤ 95 ∧
    (calculate_revenue b).smart_close_rate ≤ 85 ∧
    (b.connection_rate ≤ 95 → b.connection_rate ≤ (calculate_revenue b).smart_connection_rate) ∧
    (b.close_rate ≤ 85 → b.close_rate ≤ (calculate_revenue b).smart_close_rate) := by
  refine ⟨min_le_left _ _, min_le_left _ _, fun hc => ?_, fun hc => ?_⟩
  · exact le_min hc (by linarith)
  · exact le_min hc (by linarith)

/-- Witness for `smart_rates_capped` at the concrete valid input (100, 50, 20, 1000). -/
theorem smart_rates_capped_witness :
    (calculate_revenue ⟨100, 50, 20, 1000⟩).smart_connection_rate ≤ 95 ∧
    (calculate_revenue ⟨100, 50, 20, 1000⟩).smart_close_rate ≤ 85 ∧
    ((50 : ℚ) ≤ 95 → (50 : ℚ) ≤ (calculate_revenue ⟨100, 50, 20, 1000⟩).smart_connection_rate) ∧
    ((20 : ℚ) ≤ 85 → (20 : ℚ) ≤ (calculate_revenue ⟨100, 50, 20, 1000⟩).smart_close_rate) :=
  smart_rates_capped ⟨100, 50, 20, 1000⟩ (by norm_num [CalcInput.Valid])

/-- C9: there is a valid input with strictly negative liftRevenue: at
(100, 100, 100, 1000) the capped smart rates (95, 85) give
smartRevenue = 80750 < currentRevenue = 100000, so liftRevenue = -19250 < 0. -/
theorem lift_revenue_can_be_negative :
    CalcInput.Valid ⟨100, 100, 100, 1000⟩ ∧
      (calculate_revenue ⟨100, 100, 100, 1000⟩).lift_revenue < 0 := by
  constructor
  · norm_num [CalcInput.Valid]
  · unfold calculate_revenue round2 smart_rev smart_close smart_conn smart_close_rate
      smart_conn_rate curr_rev curr_close curr_conn
    simp only [round_eq]
    norm_num

/-- Rounding a difference to 2 decimals agrees with the difference of the
2-decimal roundings up to one unit in the last place. -/
theorem abs_round2_sub_le (x y : ℚ) :
    |round2 (x - y) - (round2 x - round2 y)| ≤ 1 / 100 := by
  have h1 := abs_sub_round (100 * (x - y))
  have h2 := abs_sub_round (100 * x)
  have h3 := abs_sub_round (100 * y)
  set m : ℤ := round (100 * (x - y)) with hm
  set p : ℤ := round (100 * x) with hp
  set q : ℤ := round (100 * y) with hq
  rw [abs_le] at h1 h2 h3
  have hint : |m - p + q| ≤ 1 := by
    have habs : |((m - p + q : ℤ) : ℚ)| < 2 := by
      rw [abs_lt]
      push_cast
      constructor <;> nlinarith [h1.1, h1.2, h2.1, h2.2, h3.1, h3.2]
    have h2' : |m - p + q| < 2 := by exact_mod_cast habs
    omega
  have heq : round2 (x - y) - (round2 x - round2 y) = ((m - p + q : ℤ) : ℚ) / 100 := by
    unfold round2
    rw [← hm, ← hp, ← hq]
    push_cast
    ring
  rw [heq, abs_div]
  have hcast : |((m - p + q : ℤ) : ℚ)| ≤ 1 := by
    rw [← Int.cast_abs]
    exact_mod_cast hint
  rw [abs_of_pos (by norm_num : (0 : ℚ) < 100)]
  linarith

/-- C8: for every valid input, liftRevenue is the 2-decimal rounding of the
unrounded difference smart_rev - curr_rev, and it differs from the difference
of the separately rounded smartRevenue and currentRevenue fields by at most
one unit in the second decimal place (1/100). -/
theorem lift_revenue_rounding (b : CalcInput) (_h : b.Valid) :
    (calculate_revenue b).lift_revenue = round2 (smart_rev b - curr_rev b) ∧
    |(calculate_revenue b).lift_revenue -
        ((calculate_revenue b).smart_revenue - (calculate_revenue b).current_revenue)| ≤
      1 / 100 :=
  ⟨rfl, abs_round2_sub_le (smart_rev b) (curr_rev b)⟩

/-- Witness for `lift_revenue_rounding` at the concrete valid input (100, 50, 20, 1000). -/
theorem lift_revenue_rounding_witness :
    (calculate_revenue ⟨100, 50, 20, 1000⟩).lift_revenue =
        round2 (smart_rev ⟨100, 50, 20, 1000⟩ - curr_rev ⟨100, 50, 20, 1000⟩) ∧
    |(calculate_revenue ⟨100, 50, 20, 1000⟩).lift_revenue -
        ((calculate_revenue ⟨100, 50, 20, 1000⟩).smart_revenue -
          (calculate_revenue ⟨100, 50, 20, 1000⟩).current_revenue)| ≤ 1 / 100 :=
  lift_revenue_rounding ⟨100, 50, 20, 1000⟩ (by norm_num [CalcInput.Valid])

/-- C3: calculator validation accepts a request iff all four fields are
present and in bounds (monthlyInquiries an integer in [0, 10000],
connectionRate and closeRate in [0, 100], lifetimeValue in (0, 1000000]);
in particular monthlyInquiries = -1, monthlyInquiries = 10001,
lifetimeValue = 0 and connectionRate = 101 are each rejected whole. -/
theorem validate_calc_input_iff :
    (∀ raw : RawCalcInput,
        (validate_calc_input raw).isSome ↔
          (∃ mi, raw.monthlyInquiries = some mi ∧ 0 ≤ mi ∧ mi ≤ 10000) ∧
          (∃ cr, raw.connectionRate = some cr ∧ 0 ≤ cr ∧ cr ≤ 100) ∧
          (∃ cl, raw.closeRate = some cl ∧ 0 ≤ cl ∧ cl ≤ 100) ∧
          (∃ lv, raw.lifetimeValue = some lv ∧ 0 < lv ∧ lv ≤ 1000000)) ∧
    validate_calc_input ⟨some (-1), some 50, some 20, some 1000⟩ = none ∧
    validate_calc_input ⟨some 10001, some 50, some 20, some 1000⟩ = none ∧
    validate_calc_input ⟨some 100, some 50, some 20, some 0⟩ = none ∧
    validate_calc_input ⟨some 100, some 101, some 20, some 1000⟩ = none := by
  refine ⟨fun raw => ?_, by decide, by decide, by decide, by decide⟩
  obtain ⟨mi, cr, cl, lv⟩ := raw
  cases mi <;> cases cr <;> cases cl <;> cases lv <;> simp [validate_calc_input]
  tauto

/-- The Lead acceptance condition as the spec words it (section 3 and the C4
claim): name, phone and source present and non-empty, email syntactically
valid when present.  Stated only to compare against `validate_lead`, the
behaviour of the code. -/
def lead_accept_spec (raw : RawLead) : Prop :=
  (∃ n, raw.name = some n ∧ n ≠ "") ∧
  (∃ p, raw.phone = some p ∧ p ≠ "") ∧
  (∃ s, raw.source = some s ∧ s ≠ "") ∧
  (∀ e, raw.email = some e → isValidEmail e)

/-- C4 counterexample: a Lead with empty name (and no email) is accepted by
the code's validation — pydantic `str` fields admit the empty string — while
the claimed acceptance condition demands a non-empty name, so the claimed
"if and only if" fails at this input. -/
theorem lead_validation_iff_counterexample :
    ¬((validate_lead ⟨some "", some "5551234", none, some "demo", none, none⟩).isSome ↔
        lead_accept_spec ⟨some "", some "5551234", none, some "demo", none, none⟩) := by
  intro hiff
  obtain ⟨⟨n, hn, hne⟩, -, -, -⟩ := hiff.mp (by decide)
  exact hne (Option.some.injEq .. ▸ hn.symm)

/-- C4 (amended): a Lead request is accepted iff name, phone and source are
present strings (possibly empty — non-emptiness is not checked) and email,
when present, passes the syntactic email check; a Lead with
email = "not-an-email" is rejected and a Lead with email omitted is
accepted. -/
theorem validate_lead_iff :
    (∀ raw : RawLead,
        (validate_lead raw).isSome ↔
          (raw.name.isSome ∧ raw.phone.isSome ∧ raw.source.isSome ∧
            ∀ e, raw.email = some e → isValidEmail e)) ∧
    validate_lead ⟨some "Ann", some "5551234", some "not-an-email", some "demo", none, none⟩
      = none ∧
    (validate_lead ⟨some "Ann", some "5551234", none, some "demo", none, none⟩).isSome
      = true := by
  refine ⟨fun raw => ?_, by decide, by decide⟩
  obtain ⟨n, p, e, s, no, ind⟩ := raw
  cases n <;> cases p <;> cases s <;> cases e <;> simp [validate_lead]

/-- Concrete gateway oracles and records used by the witnesses below. -/
def gwFail : Nat → InsertOutcome := fun _ => .error "connection refused"

/-- A gateway whose insert always succeeds with identifier "abc123". -/
def gwOk : Nat → InsertOutcome := fun _ => .ok "abc123"

/-- A sample validated lead. -/
def sampleLead : Lead := ⟨"Ann", "5551234", none, "demo", none, none⟩

/-- A sample validated demo request. -/
def sampleDemoReq : DemoRequest := ⟨"Ann", "5551234", some "roofing quote"⟩

/-- A realistic raw gateway error message, longer than any truncation. -/
def rawGatewayError : String :=
  "ServerSelectionTimeoutError: localhost:27017: connection refused by remote host"

/-- C5: for every optional sampleIntent, the demo transcript has exactly four
turns with roles visitor, ai, visitor, ai; turn 1's text is sampleIntent when
present and non-empty and the literal fallback otherwise; turns 2-4 are the
three fixed literals of spec section 6. -/
theorem demo_transcript_spec (si : Option String) :
    (demo_transcript si).length = 4 ∧
    (demo_transcript si).map Turn.role = ["visitor", "ai", "visitor", "ai"] ∧
    ((demo_transcript si).map Turn.text).tail =
      [ "You\x27re in the right place! I can help with that. May I have your address and a good time for an estimate?",
        "Tomorrow afternoon works. 123 Main St.",
        "Great. I\x27ve penciled you in for 2:30 PM. You\x27ll get a confirmation by text. Anything else I can answer now?" ] ∧
    (∀ s, si = some s → s ≠ "" → ((demo_transcript si).map Turn.text).head? = some s) ∧
    ((si = none ∨ si = some "") →
      ((demo_transcript si).map Turn.text).head? = some "Hi! I\x27m looking for a quote.") := by
  refine ⟨rfl, rfl, rfl, ?_, ?_⟩
  · rintro s rfl hne
    simp [demo_transcript, orDefault, hne]
  · rintro (rfl | rfl) <;> simp [demo_transcript, orDefault]

/-- Witness for `demo_transcript_spec`: the first turn echoes
"roofing quote" when given, and falls back to the literal on empty intent. -/
theorem demo_transcript_spec_witness :
    ((demo_transcript (some "roofing quote")).map Turn.text).head? = some "roofing quote" ∧
    ((demo_transcript (some "")).map Turn.text).head? =
      some "Hi! I\x27m looking for a quote." :=
  ⟨(demo_transcript_spec (some "roofing quote")).2.2.2.1 "roofing quote" rfl (by decide),
   (demo_transcript_spec (some "")).2.2.2.2 (Or.inr rfl)⟩

/-- C6: each handler makes exactly one gateway insert call (no retry), and
when the insert raises, the response is the 500 persistence failure carrying
no identifier, and the demo response carries no transcript (it is built only
after a successful insert). -/
theorem handler_persistence_contract (gw : Nat → InsertOutcome) (l : Lead) (r : DemoRequest) :
    (create_lead gw l).2.length = 1 ∧
    (create_demo gw r).2.length = 1 ∧
    (∀ e, gw 0 = .error e →
      (create_lead gw l).1 = .httpError 500 e ∧
      (create_demo gw r).1 = .httpError 500 e ∧
      response_transcript (create_demo gw r).1 = none) := by
  unfold create_lead create_demo
  cases hg : gw 0 <;> simp [response_transcript, hg]

/-- Witness for `handler_persistence_contract` on a failing gateway. -/
theorem handler_persistence_contract_witness :
    (create_lead gwFail sampleLead).2.length = 1 ∧
    (create_demo gwFail sampleDemoReq).2.length = 1 ∧
    ((create_lead gwFail sampleLead).1 = .httpError 500 "connection refused" ∧
      (create_demo gwFail sampleDemoReq).1 = .httpError 500 "connection refused" ∧
      response_transcript (create_demo gwFail sampleDemoReq).1 = none) :=
  ⟨(handler_persistence_contract gwFail sampleLead sampleDemoReq).1,
   (handler_persistence_contract gwFail sampleLead sampleDemoReq).2.1,
   (handler_persistence_contract gwFail sampleLead sampleDemoReq).2.2 "connection refused" rfl⟩

/-- C7 counterexample: on a gateway failure the 500 detail is exactly the raw
underlying error string (str(e) is passed through untouched, unlike the /test
endpoint which truncates to 50 characters), refuting "the message is
truncated/sanitized before being returned". -/
theorem error_detail_not_truncated_counterexample :
    (create_lead (fun _ => .error rawGatewayError) sampleLead).1 =
        .httpError 500 rawGatewayError ∧
    50 < rawGatewayError.length :=
  ⟨rfl, by decide⟩

/-- C7 (amended): when a gateway insert fails, both handlers return HTTP 500
whose detail is exactly the raw error message str(e), with no truncation or
sanitization. -/
theorem error_detail_is_raw (gw : Nat → InsertOutcome) (l : Lead) (r : DemoRequest)
    (e : String) (h : gw 0 = .error e) :
    (create_lead gw l).1 = .httpError 500 e ∧
    (create_demo gw r).1 = .httpError 500 e := by
  unfold create_lead create_demo
  simp [h]

/-- Witness for `error_detail_is_raw` on a failing gateway. -/
theorem error_detail_is_raw_witness :
    (create_lead gwFail sampleLead).1 = .httpError 500 "connection refused" ∧
    (create_demo gwFail sampleDemoReq).1 = .httpError 500 "connection refused" :=
  error_detail_is_raw gwFail sampleLead sampleDemoReq "connection refused" rfl

/-- C10: the demo transcript depends only on sample_intent — two demo requests
agreeing on sample_intent but differing in name and phone get identical
transcripts from the same gateway (noninterference of name and phone). -/
theorem demo_transcript_noninterference (gw : Nat → InsertOutcome) (r1 r2 : DemoRequest)
    (h : r1.sample_intent = r2.sample_intent) :
    response_transcript (create_demo gw r1).1 =
      response_transcript (create_demo gw r2).1 := by
  unfold create_demo
  cases gw 0 <;> simp [response_transcript, h]

/-- Witness for `demo_transcript_noninterference`: two successful demo calls
differing in name and phone. -/
theorem demo_transcript_noninterference_witness :
    response_transcript (create_demo gwOk ⟨"Ann", "5551234", some "roofing quote"⟩).1 =
      response_transcript (create_demo gwOk ⟨"Bob", "5559999", some "roofing quote"⟩).1 :=
  demo_transcript_noninterference gwOk ⟨"Ann", "5551234", some "roofing quote"⟩
    ⟨"Bob", "5559999", some "roofing quote"⟩ rfl

end ContractorSmartSite
